import Mathlib

/-!
Verification of the intent-classification and response-selection engine of
EXPLORABOT (`src/nlp-processor.js`, class `NLPProcessor`).

The JavaScript class is shallowly embedded as follows.

* Input strings are Lean `String`s; the character-level matching that the
  JS regular expressions perform is carried out on `List Char` (`String.data`).
* Each regex literal of the intent table is translated to a value of the
  small pattern type `Pat` below, whose constructors cover exactly the
  shapes of regex appearing in the table (anchored alternation, word-bounded
  alternation, `how\s+to`, and the verb/`.*`/noun pattern of the `code`
  intent).  All of the table's regexes carry the `i` flag, so `Pat.test`
  lower-cases the input first (ASCII folding, which is what a non-`u`-mode
  JS regex performs on the ASCII keywords of this table; exotic Unicode
  case mappings such as U+0130 or U+212A are outside the model).
* `Math.floor(Math.random() * responses.length)` always yields an index in
  `[0, length)`; the draw is modelled by an arbitrary `r : Nat` reduced
  `mod` the length, so quantifying over `r` quantifies over every possible
  outcome of the selection.
* `new Date().toISOString()` is modelled by `Nat` clock readings passed to
  `process` (one per push).
* `this.context` is the explicit state `NLPContext`; `process` returns the
  response string together with the updated state.
* Absence of a string value (`null`/`undefined`/non-string argument, which
  the guard `!userInput || typeof userInput !== 'string'` sends to the
  default branch) is modelled by `none : Option String`.
-/

/-- The WhiteSpace/LineTerminator characters of JS (`String.prototype.trim`
and the regex class `\s` use the same set). -/
def jsWhitespace (c : Char) : Bool :=
  c = ' ' || c = '\t' || c = '\n' || c = '\r' ||
  c.toNat = 0xB || c.toNat = 0xC || c.toNat = 0xA0 || c.toNat = 0x1680 ||
  (0x2000 ≤ c.toNat && c.toNat ≤ 0x200A) ||
  c.toNat = 0x2028 || c.toNat = 0x2029 || c.toNat = 0x202F ||
  c.toNat = 0x205F || c.toNat = 0x3000 || c.toNat = 0xFEFF

/-- JS LineTerminator characters: what `.` (without the `s` flag) refuses to
match. -/
def isLineTerm (c : Char) : Bool :=
  c = '\n' || c = '\r' || c.toNat = 0x2028 || c.toNat = 0x2029

/-- JS regex word character (`\w`), which `\b` boundaries are defined from. -/
def isWordChar (c : Char) : Bool :=
  ('a' ≤ c && c ≤ 'z') || ('A' ≤ c && c ≤ 'Z') || ('0' ≤ c && c ≤ '9') || c = '_'

/-- ASCII lower-casing of one character (case folding of a non-`u`-mode
case-insensitive JS regex on ASCII letters, and `String.prototype.toLowerCase`
restricted to ASCII). -/
def asciiLower (c : Char) : Char :=
  if 0x41 ≤ c.toNat && c.toNat ≤ 0x5A then Char.ofNat (c.toNat + 32) else c

/-- Drop leading JS whitespace. -/
def dropLeadingWs : List Char → List Char
  | [] => []
  | c :: rest => if jsWhitespace c then dropLeadingWs rest else c :: rest

/-- `String.prototype.trim`: drop leading and trailing JS whitespace. -/
def jsTrim (s : List Char) : List Char :=
  dropLeadingWs ((dropLeadingWs s.reverse).reverse)

/-- `String.prototype.includes`: `pat` occurs as a contiguous substring. -/
def containsSub (s pat : List Char) : Bool :=
  match s with
  | [] => pat.isEmpty
  | c :: rest => pat.isPrefixOf (c :: rest) || containsSub rest pat

/-- `true` when the list is empty or starts with a non-word character: the
right-hand side of a `\b` placed after a word character. -/
def noWordAt : List Char → Bool
  | [] => true
  | c :: _ => !isWordChar c

/-- Scan for an occurrence of one of `alts` whose left end sits at a `\b`
boundary (and, when `checkRight` is set, whose right end does too).
`prevW` records whether the character just before the current position is a
word character (`false` at the start of the string).  The encoding assumes
every alternative starts and ends with a word character, which holds for
every alternative in the intent table. -/
def boundedScan (checkRight : Bool) (alts : List (List Char)) (prevW : Bool) :
    List Char → Bool
  | [] => false
  | c :: rest =>
    (!prevW && alts.any (fun a =>
        a.isPrefixOf (c :: rest) &&
        (!checkRight || noWordAt (List.drop a.length (c :: rest)))))
    || boundedScan checkRight alts (isWordChar c) rest

/-- After the `how` of `/how\s+to/`: one or more `\s` characters followed by
the literal `to`. -/
def spacesThenTo : List Char → Bool
  | [] => false
  | c :: rest => jsWhitespace c && (['t', 'o'].isPrefixOf rest || spacesThenTo rest)

/-- An occurrence of `/how\s+to/` anywhere in the (already lower-cased)
input. -/
def howToScan : List Char → Bool
  | [] => false
  | c :: rest =>
    (['h', 'o', 'w'].isPrefixOf (c :: rest) && spacesThenTo (List.drop 3 (c :: rest)))
    || howToScan rest

/-- The `.*(noun)` tail of the `code` intent's regex: a run of non-line-
terminator characters followed by one of `nouns`. -/
def dotStarThenAny (nouns : List (List Char)) : List Char → Bool
  | [] => false
  | c :: rest =>
    nouns.any (fun n => n.isPrefixOf (c :: rest)) || (!isLineTerm c && dotStarThenAny nouns rest)

/-- Scan for `/\b(verb)\b.*(noun)/`: a word-bounded occurrence of one of
`verbs` followed (on the same line) by an occurrence of one of `nouns`. -/
def verbNounScan (verbs nouns : List (List Char)) (prevW : Bool) : List Char → Bool
  | [] => false
  | c :: rest =>
    (!prevW && verbs.any (fun v =>
        v.isPrefixOf (c :: rest) &&
        noWordAt (List.drop v.length (c :: rest)) &&
        dotStarThenAny nouns (List.drop v.length (c :: rest))))
    || verbNounScan verbs nouns (isWordChar c) rest

/-- The shapes of regex literal occurring in the intent table.  Each
constructor is the translation of one regex form; all carry the `i` flag,
handled uniformly in `Pat.test`. -/
inductive Pat where
  /-- `/^(a|b|…)/i` (also covers `/^what/i` and `/^good (…)/i` after
  distributing the common prefix over the alternation). -/
  | startsWithAny (alts : List String)
  /-- `/\b(a|b|…)\b/i` -/
  | containsBoundedAny (alts : List String)
  /-- `/\b(a|b|…)/i` (left boundary only, as in the `mobile` intent). -/
  | containsLeftBoundedAny (alts : List String)
  /-- `/how\s+to/i` -/
  | howSpacesTo
  /-- `/\b(verb…)\b.*(noun…)/i` (the `code` intent). -/
  | boundedAnyThenAny (verbs nouns : List String)
deriving DecidableEq

/-- `RegExp.prototype.test` for the embedded pattern shapes. -/
def Pat.test (p : Pat) (s : List Char) : Bool :=
  let lo := s.map asciiLower
  match p with
  | .startsWithAny alts => alts.any (fun a => a.data.isPrefixOf lo)
  | .containsBoundedAny alts => boundedScan true (alts.map String.data) false lo
  | .containsLeftBoundedAny alts => boundedScan false (alts.map String.data) false lo
  | .howSpacesTo => howToScan lo
  | .boundedAnyThenAny verbs nouns =>
      verbNounScan (verbs.map String.data) (nouns.map String.data) false lo

/-- One entry of the intent table: its pattern list and its response
templates, in declared order. -/
structure IntentData where
  patterns : List Pat
  responses : List String
deriving DecidableEq

/-- `process.env.NODE_ENV || 'development'`, read once when the intent table
is built.  Modelled as the fallback value `development`. -/
def nodeEnv : String := "development"

/-- The `greeting` intent of the constructor's table. -/
def greetingData : IntentData where
  patterns := [
    .startsWithAny ["hi", "hello", "hey", "greetings"],
    .startsWithAny ["good morning", "good afternoon", "good evening"]]
  responses := [
    "Hello! 👋 I'm EXPLORABOT, your AI assistant. How can I help you today?",
    "Hi there! I'm here to help you build and deploy applications without writing code. What would you like to create?",
    "Hey! Ready to explore? Ask me anything or describe what you'd like to build!"]

/-- The `help` intent of the constructor's table. -/
def helpData : IntentData where
  patterns := [
    .containsBoundedAny ["help", "assist", "guide", "support", "what can you do"],
    .howSpacesTo,
    .startsWithAny ["what"]]
  responses := [
    "🤖 **I can help you with:**\n\n• **Deploy Applications** - \"Deploy a web app\" or \"Set up Docker container\"\n• **Generate Code** - \"Create a REST API\" or \"Build a login form\"\n• **Explain Concepts** - \"What is CI/CD?\" or \"Explain microservices\"\n• **Configure Services** - \"Set up database\" or \"Configure environment\"\n• **Best Practices** - \"Mobile optimization tips\" or \"Security guidelines\"\n\nJust describe what you need in plain English!"]

/-- The `deploy` intent of the constructor's table. -/
def deployData : IntentData where
  patterns := [.containsBoundedAny ["deploy", "deployment", "launch", "publish", "release"]]
  responses := [
    "🚀 **Deployment Options:**\n\n1. **Docker** - Containerize and deploy locally\n2. **Railway** - One-click cloud deployment\n3. **Docker Compose** - Multi-service orchestration\n\nTell me: \"Deploy with Docker\" or \"Set up Railway deployment\""]

/-- The `code` intent of the constructor's table. -/
def codeData : IntentData where
  patterns := [.boundedAnyThenAny ["code", "generate", "create", "build", "make", "develop"]
    ["app", "api", "form", "page", "component"]]
  responses := [
    "💻 **Code Generation:**\n\nI can help you create:\n• Web pages and UI components\n• REST APIs and endpoints\n• Database schemas\n• Authentication systems\n• Mobile-responsive layouts\n\nWhat would you like me to generate?"]

/-- The `docker` intent of the constructor's table. -/
def dockerData : IntentData where
  patterns := [.containsBoundedAny ["docker", "container", "dockerfile", "image"]]
  responses := [
    "🐳 **Docker Commands:**\n\n```bash\n# Build container\ndocker build -t explorabot .\n\n# Run container\ndocker run -p 8080:8080 explorabot\n\n# Or use Docker Compose\ndocker-compose up -d\n```\n\nNeed help with a specific Docker task?"]

/-- The `mobile` intent of the constructor's table. -/
def mobileData : IntentData where
  patterns := [.containsLeftBoundedAny ["mobile", "responsive", "phone", "tablet", "samsung", "galaxy"]]
  responses := [
    "📱 **Mobile Optimization:**\n\nEXPLORABOT is optimized for Samsung Galaxy S24 FE:\n• 120Hz smooth animations\n• AMOLED dark theme\n• Touch-optimized controls\n• Offline support\n• Battery efficient\n\nSee our [Mobile Platform Guidelines](/docs/MOBILE_PLATFORM_GUIDELINES.md)"]

/-- The `ai` intent of the constructor's table. -/
def aiData : IntentData where
  patterns := [.containsBoundedAny ["ai", "artificial intelligence", "machine learning", "ml", "model", "neural"]]
  responses := [
    "🧠 **AI Capabilities:**\n\n• On-device AI inference\n• Model optimization for mobile\n• Natural language processing\n• Context-aware responses\n• Zero-code AI integration\n\nLearn more in our [AI Architect Persona](/docs/AI_ARCHITECT_PERSONA.md)"]

/-- The `status` intent of the constructor's table. -/
def statusData : IntentData where
  patterns := [.containsBoundedAny ["status", "health", "running", "online", "check"]]
  responses := [
    "✅ **System Status:**\n\n🟢 Bot is online and healthy\n📊 Version: 1.0.0\n🌍 Environment: " ++ nodeEnv ++ "\n⚡ Ready to assist you!"]

/-- `this.intents`: the fixed intent table, in declaration (insertion)
order, which is the order `Object.entries` yields. -/
def intents : List (String × IntentData) := [
  ("greeting", greetingData),
  ("help", helpData),
  ("deploy", deployData),
  ("code", codeData),
  ("docker", dockerData),
  ("mobile", mobileData),
  ("ai", aiData),
  ("status", statusData)]

/-- `getDefaultResponse()`: the fixed default/welcome template. -/
def getDefaultResponse : String :=
  "👋 Welcome to EXPLORABOT!\n\nI'm your AI assistant for building and deploying applications **without writing code**.\n\n**Try saying:**\n• \"Help me deploy an app\"\n• \"Create a REST API\"\n• \"Show me Docker commands\"\n• \"Mobile optimization tips\"\n\nJust describe what you need in plain English! 🚀"

/-- `this.intents[intent]`: key lookup in the intent table. -/
def lookupIntent (name : String) : Option IntentData :=
  (intents.find? (fun e => e.1 == name)).map (fun e => e.2)

/-- `getResponse(intent)`: pick one of the intent's response templates.
The random draw `Math.floor(Math.random() * responses.length)` is modelled
by `r % responses.length` for an arbitrary `r`; every response list of the
table is non-empty, so the emptiness guard (kept for totality of the
indexing) is never taken on table data. -/
def getResponse (intent : String) (r : Nat) : String :=
  match lookupIntent intent with
  | none => getDefaultResponse
  | some d =>
    if d.responses.isEmpty then getDefaultResponse
    else d.responses.getD (r % d.responses.length) getDefaultResponse

/-- `detectIntent(input)`: first intent, in table order, one of whose
patterns matches; the inner loop over patterns is `List.any` in declared
order. -/
def detectIntent (input : List Char) : Option String :=
  (intents.find? (fun e => e.2.patterns.any (fun p => p.test input))).map (fun e => e.1)

/-- The `question` keyword set of the fallback heuristic. -/
def questionKeywords : List String := ["what", "how", "why", "when", "where", "who", "?"]

/-- The `technical` keyword set of the fallback heuristic. -/
def technicalKeywords : List String := ["api", "database", "server", "config", "setup"]

/-- The `action` keyword set of the fallback heuristic. -/
def actionKeywords : List String := ["create", "make", "build", "generate", "show", "explain"]

/-- The `question` fallback template (note the trailing space after the
echoed input, present in the source). -/
def fallbackQuestion (input : String) : String :=
  "🤔 Great question! I'm still learning about \"" ++ input ++ "\". \n\nTry asking about:\n• Deployment (\"How do I deploy?\")\n• Code generation (\"Create a REST API\")\n• Docker (\"Help with Docker\")\n• Mobile optimization (\"Mobile best practices\")"

/-- The `technical` fallback template. -/
def fallbackTechnical (input : String) : String :=
  "🔧 I can help with technical tasks!\n\nFor \"" ++ input ++ "\", try being more specific:\n• \"Deploy with Docker\"\n• \"Create API endpoint\"\n• \"Set up database connection\"\n• \"Configure CI/CD pipeline\""

/-- The `action` fallback template. -/
def fallbackAction (input : String) : String :=
  "⚡ I'm ready to help you with that!\n\nTo better assist with \"" ++ input ++ "\", please provide more details:\n• What type of application?\n• What features do you need?\n• Any specific requirements?"

/-- The `general` fallback template. -/
def fallbackGeneral (input : String) : String :=
  "💭 I understand you mentioned \"" ++ input ++ "\".\n\nI can help you with:\n• Deploying applications 🚀\n• Generating code 💻\n• Docker configuration 🐳\n• Mobile optimization 📱\n• AI integration 🧠\n\nType \"help\" to see all my capabilities!"

/-- `getIntelligentFallback(input)`: classify the lower-cased input into the
first of the buckets question / technical / action whose keyword set has a
substring hit, else general, and return that bucket's template with the
input echoed into it. -/
def getIntelligentFallback (input : List Char) : String :=
  let lo := input.map asciiLower
  let inp := String.mk input
  if questionKeywords.any (fun kw => containsSub lo kw.data) then fallbackQuestion inp
  else if technicalKeywords.any (fun kw => containsSub lo kw.data) then fallbackTechnical inp
  else if actionKeywords.any (fun kw => containsSub lo kw.data) then fallbackAction inp
  else fallbackGeneral inp

/-- One record of `this.context.conversationHistory`.  The user turn leaves
`intent` at `none` (the JS object literal has no `intent` field there). -/
structure ConversationTurn where
  role : String
  content : String
  intent : Option String
  timestamp : Nat
deriving DecidableEq

/-- `this.context`: the engine state. -/
structure NLPContext where
  lastIntent : Option String
  conversationHistory : List ConversationTurn
deriving DecidableEq

/-- The state set up by the constructor. -/
def initialContext : NLPContext where
  lastIntent := none
  conversationHistory := []

/-- `process(userInput)`, returning the response and the updated state.
`none` models a `null`/`undefined`/non-string argument; for a string, the
guard `!userInput` is truthy exactly on the empty string.  `r` is the
random draw for `getResponse`; `t1` and `t2` are the two clock readings of
the two history pushes. -/
def process (userInput : Option String) (r t1 t2 : Nat) (ctx : NLPContext) :
    String × NLPContext :=
  match userInput with
  | none => (getDefaultResponse, ctx)
  | some s =>
    if s.isEmpty then (getDefaultResponse, ctx)
    else
      let input := jsTrim s.data
      let hist1 := ctx.conversationHistory ++
        [{ role := "user", content := String.mk input, intent := none, timestamp := t1 }]
      match detectIntent input with
      | some intentName =>
        let response := getResponse intentName r
        (response,
          { lastIntent := some intentName,
            conversationHistory := hist1 ++
              [{ role := "assistant", content := response, intent := some intentName,
                 timestamp := t2 }] })
      | none => (getIntelligentFallback input, { ctx with conversationHistory := hist1 })

/-- `getHistory()`. -/
def getHistory (ctx : NLPContext) : List ConversationTurn :=
  ctx.conversationHistory

/-- `clearContext()`: replace the state by a fresh one. -/
def clearContext (_ : NLPContext) : NLPContext where
  lastIntent := none
  conversationHistory := []

/-! ### Helper lemmas -/

theorem ne_empty_of_data_ne_nil {s : String} (h : s.data ≠ []) : s ≠ "" := by
  intro he
  exact h (by rw [he])

/-- A string whose first summand has non-empty data is non-empty. -/
theorem lit_append_append_ne_empty (a b c : String) (h : a.data ≠ []) :
    a ++ b ++ c ≠ "" := by
  apply ne_empty_of_data_ne_nil
  rw [String.data_append, String.data_append]
  intro he
  rcases List.append_eq_nil.mp he with ⟨h1, -⟩
  rcases List.append_eq_nil.mp h1 with ⟨h2, -⟩
  exact h h2

theorem getD_mem_of_lt {α : Type} (l : List α) (n : Nat) (d : α) (h : n < l.length) :
    l.getD n d ∈ l := by
  rw [List.getD_eq_getElem?_getD, List.getElem?_eq_getElem h]
  exact List.getElem_mem h

/-- `find?` returns exactly the element at the first index whose predicate
holds: if everything strictly before `k` fails `p` and index `k` satisfies
it, the search stops at `k`. -/
theorem find?_eq_of_first_true {α : Type} (p : α → Bool) (l : List α) :
    ∀ (k : Nat) (hk : k < l.length),
      (l.take k).all (fun a => !p a) = true → p (l.get ⟨k, hk⟩) = true →
      l.find? p = some (l.get ⟨k, hk⟩) := by
  induction l with
  | nil => intro k hk _ _; exact absurd hk (by simp)
  | cons a t ih =>
    intro k hk hall hp
    cases k with
    | zero =>
      have hpa : p a = true := hp
      simp [List.find?_cons, hpa, List.get]
    | succ m =>
      rw [List.take_succ_cons, List.all_cons, Bool.and_eq_true] at hall
      have ha : p a = false := by
        cases hpa : p a
        · rfl
        · rw [hpa] at hall; exact absurd hall.1 (by simp)
      rw [List.find?_cons, ha]
      exact ih m (Nat.lt_of_succ_lt_succ hk) hall.2 hp

/-- Every entry of the intent table has a non-empty response list all of
whose templates are non-empty strings. -/
theorem intents_responses_sound :
    ∀ e ∈ intents, e.2.responses.length ≠ 0 ∧ ∀ x ∈ e.2.responses, x ≠ "" := by
  decide

theorem lookupIntent_mem {i : String} {d : IntentData} (h : lookupIntent i = some d) :
    ∃ e ∈ intents, e.2 = d := by
  unfold lookupIntent at h
  rcases Option.map_eq_some'.mp h with ⟨e, he, hed⟩
  exact ⟨e, List.mem_of_find?_eq_some he, hed⟩

theorem getDefaultResponse_ne_empty : getDefaultResponse ≠ "" := by decide

/-- The shape `getResponse` takes when the intent is in the table. -/
theorem getResponse_eq_getD {i : String} {d : IntentData} (r : Nat)
    (hl : lookupIntent i = some d) (hne : d.responses.isEmpty = false) :
    getResponse i r = d.responses.getD (r % d.responses.length) getDefaultResponse := by
  unfold getResponse
  rw [hl]
  show (if d.responses.isEmpty = true then getDefaultResponse
    else d.responses.getD (r % d.responses.length) getDefaultResponse) = _
  rw [hne]
  simp

theorem getResponse_ne_empty (i : String) (r : Nat) : getResponse i r ≠ "" := by
  cases hl : lookupIntent i with
  | none =>
    have hstep : getResponse i r = getDefaultResponse := by unfold getResponse; rw [hl]
    rw [hstep]; exact getDefaultResponse_ne_empty
  | some d =>
    rcases lookupIntent_mem hl with ⟨e, hmem, rfl⟩
    rcases intents_responses_sound e hmem with ⟨hlen, hall⟩
    have hpos : 0 < e.2.responses.length := Nat.pos_of_ne_zero hlen
    have hne : e.2.responses.isEmpty = false := by
      cases hre : e.2.responses
      · rw [hre] at hpos; exact absurd hpos (by simp)
      · rfl
    rw [getResponse_eq_getD r hl hne]
    exact hall _ (getD_mem_of_lt _ _ _ (Nat.mod_lt _ hpos))

/-- The fallback always returns one of the four bucket templates, applied to
the input it was handed. -/
theorem getIntelligentFallback_cases (input : List Char) :
    getIntelligentFallback input = fallbackQuestion (String.mk input) ∨
    getIntelligentFallback input = fallbackTechnical (String.mk input) ∨
    getIntelligentFallback input = fallbackAction (String.mk input) ∨
    getIntelligentFallback input = fallbackGeneral (String.mk input) := by
  unfold getIntelligentFallback
  by_cases h1 : (questionKeywords.any fun kw =>
      containsSub (List.map asciiLower input) kw.data) = true
  · left; simp [h1]
  by_cases h2 : (technicalKeywords.any fun kw =>
      containsSub (List.map asciiLower input) kw.data) = true
  · right; left; simp [h1, h2]
  by_cases h3 : (actionKeywords.any fun kw =>
      containsSub (List.map asciiLower input) kw.data) = true
  · right; right; left; simp [h1, h2, h3]
  · right; right; right; simp [h1, h2, h3]

theorem fallbackQuestion_ne_empty (inp : String) : fallbackQuestion inp ≠ "" := by
  unfold fallbackQuestion
  exact lit_append_append_ne_empty _ _ _ (by decide)

theorem fallbackTechnical_ne_empty (inp : String) : fallbackTechnical inp ≠ "" := by
  unfold fallbackTechnical
  exact lit_append_append_ne_empty _ _ _ (by decide)

theorem fallbackAction_ne_empty (inp : String) : fallbackAction inp ≠ "" := by
  unfold fallbackAction
  exact lit_append_append_ne_empty _ _ _ (by decide)

theorem fallbackGeneral_ne_empty (inp : String) : fallbackGeneral inp ≠ "" := by
  unfold fallbackGeneral
  exact lit_append_append_ne_empty _ _ _ (by decide)

theorem getIntelligentFallback_ne_empty (input : List Char) :
    getIntelligentFallback input ≠ "" := by
  rcases getIntelligentFallback_cases input with h | h | h | h <;> rw [h]
  · exact fallbackQuestion_ne_empty _
  · exact fallbackTechnical_ne_empty _
  · exact fallbackAction_ne_empty _
  · exact fallbackGeneral_ne_empty _

theorem isEmpty_false_of_ne_true {b : Bool} (h : ¬b = true) : b = false := by
  cases hb : b with
  | false => rfl
  | true => exact absurd hb h

/-! ### Claim theorems -/

/-- Claim C1: totality of `process` — for every input (`none` standing for
any `null`/`undefined`/non-string value, `some s` for any string, including
the empty, whitespace-only, long, unicode and multi-intent ones), every
random draw, every pair of clock readings and every starting state, the
returned response is a non-empty string (and, the model being total, the
call never fails). -/
theorem process_total_nonempty (userInput : Option String) (r t1 t2 : Nat)
    (ctx : NLPContext) : (process userInput r t1 t2 ctx).1 ≠ "" := by
  cases userInput with
  | none => exact getDefaultResponse_ne_empty
  | some s =>
    by_cases hs : s.isEmpty = true
    · have hstep : (process (some s) r t1 t2 ctx).1 = getDefaultResponse := by
        simp [process, hs]
      rw [hstep]; exact getDefaultResponse_ne_empty
    · have hs' : s.isEmpty = false := isEmpty_false_of_ne_true hs
      cases hdet : detectIntent (jsTrim s.data) with
      | some i =>
        have hstep : (process (some s) r t1 t2 ctx).1 = getResponse i r := by
          simp [process, hs', hdet]
        rw [hstep]; exact getResponse_ne_empty i r
      | none =>
        have hstep : (process (some s) r t1 t2 ctx).1
            = getIntelligentFallback (jsTrim s.data) := by
          simp [process, hs', hdet]
        rw [hstep]; exact getIntelligentFallback_ne_empty _

/-- Claim C6: empty-input default — on `none` (a non-string value) or the
empty string, `process` returns exactly the fixed default/welcome template,
independently of the random draw, the clock and the state, hence the same
string on every such call. -/
theorem process_empty_input_default (r t1 t2 : Nat) (ctx : NLPContext) :
    (process none r t1 t2 ctx).1 = getDefaultResponse ∧
    (process (some "") r t1 t2 ctx).1 = getDefaultResponse :=
  ⟨rfl, rfl⟩

/-- Claim C8: reset — after `clearContext()` the history is empty and
`lastIntent` is `none`, and `process` on the cleared state coincides (same
response and same resulting state, for every input, draw and clock) with
`process` on a freshly constructed instance's state. -/
theorem clearContext_reset (ctx : NLPContext) (u : Option String) (r t1 t2 : Nat) :
    getHistory (clearContext ctx) = [] ∧
    (clearContext ctx).lastIntent = none ∧
    process u r t1 t2 (clearContext ctx) = process u r t1 t2 initialContext :=
  ⟨rfl, rfl, rfl⟩

/-- Claim C9: noninterference — the response returned by `process` is the
same for any two engine states (the state is exactly the pair
history/`lastIntent`, so any two states differ only in those): stored
history and `lastIntent` are never consulted for the returned value. -/
theorem process_output_state_independent (u : Option String) (r t1 t2 : Nat)
    (ctx1 ctx2 : NLPContext) :
    (process u r t1 t2 ctx1).1 = (process u r t1 t2 ctx2).1 := by
  cases u with
  | none => rfl
  | some s =>
    by_cases hs : s.isEmpty = true
    · simp [process, hs]
    · have hs' : s.isEmpty = false := isEmpty_false_of_ne_true hs
      cases hdet : detectIntent (jsTrim s.data) with
      | some i => simp [process, hs', hdet]
      | none => simp [process, hs', hdet]

/-- Claim C10: frame property of the empty/non-string branch — on `none` or
the empty string, `process` returns the default response and leaves the
state completely unchanged (no turn appended, `lastIntent` untouched). -/
theorem process_empty_input_frame (r t1 t2 : Nat) (ctx : NLPContext) :
    process none r t1 t2 ctx = (getDefaultResponse, ctx) ∧
    process (some "") r t1 t2 ctx = (getDefaultResponse, ctx) :=
  ⟨rfl, rfl⟩

/-- Claim C2 counterexample: on the input `"zzz"` no intent matches, and the
call appends only the user turn: after one call on a fresh state the history
has 1 entry, not the 2 the claim requires. -/
theorem process_fallback_appends_one_cex :
    ((process (some "zzz") 0 0 0 initialContext).2.conversationHistory.length = 1) ∧
    ¬((process (some "zzz") 0 0 0 initialContext).2.conversationHistory.length = 2) := by
  constructor
  · rfl
  · intro h
    rw [show (process (some "zzz") 0 0 0 initialContext).2.conversationHistory.length = 1
      from rfl] at h
    exact absurd h (by decide)

/-- Claim C2 (amended): a call to `process` on a non-empty string always
appends the user turn (holding the trimmed input, stamped with the clock
reading of the push), and additionally appends the assistant turn (holding
the produced response, stamped with the second reading) exactly when an
intent matched; when the fallback fires, only the user turn is appended. -/
theorem process_history_append (s : String) (r t1 t2 : Nat) (ctx : NLPContext)
    (hs : s.isEmpty = false) :
    (process (some s) r t1 t2 ctx).2.conversationHistory =
      ctx.conversationHistory ++
        ({ role := "user", content := String.mk (jsTrim s.data), intent := none,
           timestamp := t1 } ::
          (match detectIntent (jsTrim s.data) with
           | some i =>
              [{ role := "assistant", content := getResponse i r, intent := some i,
                 timestamp := t2 }]
           | none => [])) := by
  cases hdet : detectIntent (jsTrim s.data) with
  | some i => simp [process, hs, hdet]
  | none => simp [process, hs, hdet]

/-- Witness for the amended C2 at the concrete input `"hi"`. -/
theorem process_history_append_witness :
    ("hi" : String).isEmpty = false ∧
    (process (some "hi") 3 5 7 initialContext).2.conversationHistory =
      initialContext.conversationHistory ++
        ({ role := "user", content := String.mk (jsTrim ("hi" : String).data), intent := none,
           timestamp := 5 } ::
          (match detectIntent (jsTrim ("hi" : String).data) with
           | some i =>
              [{ role := "assistant", content := getResponse i 3, intent := some i,
                 timestamp := 7 }]
           | none => [])) :=
  ⟨rfl, process_history_append "hi" 3 5 7 initialContext rfl⟩

/-- Claim C3 counterexample: `"hi"` sets `lastIntent` to `greeting`; a
following call with `"zzz"` fires the fallback yet leaves `lastIntent` at
`greeting` — it is not updated to any "no intent / fallback" sentinel. -/
theorem process_fallback_keeps_lastIntent_cex :
    ((process (some "zzz") 0 0 0
        (process (some "hi") 0 0 0 initialContext).2).2.lastIntent
      = some "greeting") := by
  rfl

/-- Claim C3 (amended): a call to `process` on a non-empty string sets
`lastIntent` to the matched intent's name when some intent's pattern
matched, and leaves `lastIntent` unchanged when the fallback fired. -/
theorem process_lastIntent_update (s : String) (r t1 t2 : Nat) (ctx : NLPContext)
    (hs : s.isEmpty = false) :
    (process (some s) r t1 t2 ctx).2.lastIntent =
      (match detectIntent (jsTrim s.data) with
       | some i => some i
       | none => ctx.lastIntent) := by
  cases hdet : detectIntent (jsTrim s.data) with
  | some i => simp [process, hs, hdet]
  | none => simp [process, hs, hdet]

/-- Witness for the amended C3 at the concrete input `"hi"`. -/
theorem process_lastIntent_update_witness :
    ("hi" : String).isEmpty = false ∧
    (process (some "hi") 3 5 7 initialContext).2.lastIntent =
      (match detectIntent (jsTrim ("hi" : String).data) with
       | some i => some i
       | none => initialContext.lastIntent) :=
  ⟨rfl, process_lastIntent_update "hi" 3 5 7 initialContext rfl⟩

/-- Claim C4: declaration-order priority — for any input, if every pattern
of every intent declared before position `k` fails on it and some pattern of
the intent at position `k` matches it, then classification returns exactly
the intent at `k` (so an earlier-declared intent always beats a later one,
and the result does not depend on which of the intent's patterns matched).
`process` applies this to the trimmed input. -/
theorem detectIntent_declaration_order (s : List Char) (k : Nat) (hk : k < intents.length)
    (hearlier : (intents.take k).all
        (fun e => e.2.patterns.all fun p => !p.test s) = true)
    (hmatch : (intents.get ⟨k, hk⟩).2.patterns.any (fun p => p.test s) = true) :
    detectIntent s = some (intents.get ⟨k, hk⟩).1 := by
  unfold detectIntent
  rw [find?_eq_of_first_true (fun e => e.2.patterns.any (fun p => p.test s)) intents k hk
    ?_ hmatch]
  · rfl
  · rw [List.all_eq_true] at hearlier ⊢
    intro e he
    have h2 := hearlier e he
    rw [List.all_eq_true] at h2
    rw [Bool.not_eq_true']
    rw [List.any_eq_false]
    intro p hp
    have h3 := h2 p hp
    rw [Bool.not_eq_true'] at h3
    simp [h3]

/-- Witness for C4 at the input `"deploy"`, which fails every pattern of the
two earlier intents (`greeting`, `help`) and matches the `deploy` intent at
position 2. -/
theorem detectIntent_declaration_order_witness :
    ((intents.take 2).all
        (fun e => e.2.patterns.all fun p => !p.test ("deploy" : String).data) = true) ∧
    ((intents.get ⟨2, by decide⟩).2.patterns.any
        (fun p => p.test ("deploy" : String).data) = true) ∧
    detectIntent ("deploy" : String).data = some (intents.get ⟨2, by decide⟩).1 :=
  ⟨by decide, by decide,
    detectIntent_declaration_order ("deploy" : String).data 2 (by decide) (by decide)
      (by decide)⟩

/-- Claim C5: response-set membership — whenever the trimmed input is
classified to intent `i` (hence no earlier intent matched, by C4) and `i`'s
table entry is `d`, the string returned by `process` is a member of `d`'s
fixed response list, for every outcome `r` of the random selection. -/
theorem process_response_membership (s : String) (r t1 t2 : Nat) (ctx : NLPContext)
    (i : String) (d : IntentData)
    (hs : s.isEmpty = false)
    (hdet : detectIntent (jsTrim s.data) = some i)
    (hlook : lookupIntent i = some d) :
    (process (some s) r t1 t2 ctx).1 ∈ d.responses := by
  have hstep : (process (some s) r t1 t2 ctx).1 = getResponse i r := by
    simp [process, hs, hdet]
  rw [hstep]
  rcases lookupIntent_mem hlook with ⟨e, hmem, rfl⟩
  rcases intents_responses_sound e hmem with ⟨hlen, -⟩
  have hpos : 0 < e.2.responses.length := Nat.pos_of_ne_zero hlen
  have hne : e.2.responses.isEmpty = false := by
    cases hre : e.2.responses
    · rw [hre] at hpos; exact absurd hpos (by simp)
    · rfl
  rw [getResponse_eq_getD r hlook hne]
  exact getD_mem_of_lt _ _ _ (Nat.mod_lt _ hpos)

/-- Witness for C5 at the concrete input `"deploy"`, classified to the
`deploy` intent. -/
theorem process_response_membership_witness :
    ("deploy" : String).isEmpty = false ∧
    detectIntent (jsTrim ("deploy" : String).data) = some "deploy" ∧
    lookupIntent "deploy" = some deployData ∧
    (process (some "deploy") 4 0 0 initialContext).1 ∈ deployData.responses :=
  ⟨rfl, by decide, by rfl,
    process_response_membership "deploy" 4 0 0 initialContext "deploy" deployData rfl
      (by decide) (by rfl)⟩

theorem isPrefixOf_self_append (p post : List Char) : p.isPrefixOf (p ++ post) = true :=
  List.isPrefixOf_iff_prefix.mpr (List.prefix_append p post)

theorem containsSub_nil_pat (s : List Char) : containsSub s [] = true := by
  cases s <;> simp [containsSub, List.isPrefixOf]

/-- A pattern occurs in any string of which it is an infix. -/
theorem containsSub_append (pre p post : List Char) :
    containsSub (pre ++ (p ++ post)) p = true := by
  induction pre with
  | nil =>
    cases p with
    | nil => rw [List.nil_append, List.nil_append]; exact containsSub_nil_pat post
    | cons c rest =>
      rw [List.nil_append, List.cons_append]
      simp only [containsSub, Bool.or_eq_true]
      left
      rw [← List.cons_append]
      exact isPrefixOf_self_append (c :: rest) post
  | cons a pre' ih =>
    rw [List.cons_append]
    simp only [containsSub, Bool.or_eq_true]
    right
    exact ih

/-- Any template of the form `lit1 ++ input ++ lit2` echoes the input. -/
theorem template_echo (lit1 lit2 : String) (input : List Char) :
    containsSub (lit1 ++ String.mk input ++ lit2).data input = true := by
  have h : (lit1 ++ String.mk input ++ lit2).data
      = lit1.data ++ (input ++ lit2.data) := by
    rw [String.data_append, String.data_append, List.append_assoc]
  rw [h]
  exact containsSub_append _ _ _

/-- Claim C7: fallback heuristic — when no intent's pattern matches the
trimmed input, `process` returns, deterministically, the template of the
first of the four buckets question / technical / action / general (in that
priority order) whose fixed keyword set has a substring hit on the
lower-cased input ('?' included as a literal for the question bucket), and
that template echoes the input of the heuristic (the trimmed user input)
verbatim inside it. -/
theorem process_fallback_heuristic (s : String) (r t1 t2 : Nat) (ctx : NLPContext)
    (hs : s.isEmpty = false)
    (hdet : detectIntent (jsTrim s.data) = none) :
    ((process (some s) r t1 t2 ctx).1 =
      (if questionKeywords.any
          (fun kw => containsSub ((jsTrim s.data).map asciiLower) kw.data)
        then fallbackQuestion (String.mk (jsTrim s.data))
       else if technicalKeywords.any
          (fun kw => containsSub ((jsTrim s.data).map asciiLower) kw.data)
        then fallbackTechnical (String.mk (jsTrim s.data))
       else if actionKeywords.any
          (fun kw => containsSub ((jsTrim s.data).map asciiLower) kw.data)
        then fallbackAction (String.mk (jsTrim s.data))
       else fallbackGeneral (String.mk (jsTrim s.data)))) ∧
    containsSub ((process (some s) r t1 t2 ctx).1).data (jsTrim s.data) = true := by
  have hstep : (process (some s) r t1 t2 ctx).1
      = getIntelligentFallback (jsTrim s.data) := by
    simp [process, hs, hdet]
  constructor
  · rw [hstep]
    rfl
  · rw [hstep]
    rcases getIntelligentFallback_cases (jsTrim s.data) with h | h | h | h <;> rw [h]
    · unfold fallbackQuestion; exact template_echo _ _ _
    · unfold fallbackTechnical; exact template_echo _ _ _
    · unfold fallbackAction; exact template_echo _ _ _
    · unfold fallbackGeneral; exact template_echo _ _ _

/-- Witness for C7 at the concrete input `"zzz?"` (no intent matches; the
literal `?` puts it in the question bucket). -/
theorem process_fallback_heuristic_witness :
    ("zzz?" : String).isEmpty = false ∧
    detectIntent (jsTrim ("zzz?" : String).data) = none ∧
    (((process (some "zzz?") 0 0 0 initialContext).1 =
      (if questionKeywords.any
          (fun kw => containsSub ((jsTrim ("zzz?" : String).data).map asciiLower) kw.data)
        then fallbackQuestion (String.mk (jsTrim ("zzz?" : String).data))
       else if technicalKeywords.any
          (fun kw => containsSub ((jsTrim ("zzz?" : String).data).map asciiLower) kw.data)
        then fallbackTechnical (String.mk (jsTrim ("zzz?" : String).data))
       else if actionKeywords.any
          (fun kw => containsSub ((jsTrim ("zzz?" : String).data).map asciiLower) kw.data)
        then fallbackAction (String.mk (jsTrim ("zzz?" : String).data))
       else fallbackGeneral (String.mk (jsTrim ("zzz?" : String).data)))) ∧
    containsSub ((process (some "zzz?") 0 0 0 initialContext).1).data
      (jsTrim ("zzz?" : String).data) = true) :=
  ⟨rfl, by decide, process_fallback_heuristic "zzz?" 0 0 0 initialContext rfl (by decide)⟩
